import Mathlib

/-!
Verification development for the conversational curriculum-research agent.

The definitions below are a shallow embedding of the agent's control flow:
the LangGraph routing functions (`src/backend/app/graph/graph.py`), the
reflection merge step (`src/backend/app/graph/nodes/reflection.py`), the
tool executor (`src/backend/app/graph/nodes/tool_executor.py`), the
clarification classifiers (`src/backend/app/graph/nodes/clarification.py`),
the reasoning parse fallback (`src/backend/app/graph/nodes/reasoning.py`)
and the multi-phase deep-research orchestrator
(`src/backend/app/services/research_orchestrator.py`).

External effects (LLM completions, tool executions, the JSON decoder) are
passed in as explicit oracle parameters; everything else follows the Python
source line by line.  Machine integers do not overflow in the modelled
code paths (counters are small Python ints), so `Nat` is used directly.
-/

namespace CurriculumAgent

/-! ### String helpers mirroring the Python builtins used by the source -/

/-- Whether `p` is a (character-wise) prefix of `s`. -/
def charsBegins : List Char → List Char → Bool
  | [], _ => true
  | _ :: _, [] => false
  | p :: ps, c :: cs => p == c && charsBegins ps cs

/-- Whether `pat` occurs as a contiguous run inside `s`. -/
def charsInfix (pat : List Char) : List Char → Bool
  | [] => pat.isEmpty
  | c :: cs => charsBegins pat (c :: cs) || charsInfix pat cs

/-- Python `pat in s` substring containment. -/
def strContains (s pat : String) : Bool :=
  charsInfix pat.data s.data

/-- Python `str.lower()` (ASCII case folding, which covers all literals used
by the source). -/
def pyLower (s : String) : String :=
  ⟨s.data.map Char.toLower⟩

/-- Python `str.strip()`: remove leading and trailing whitespace. -/
def pyStrip (s : String) : String :=
  ⟨((s.data.dropWhile Char.isWhitespace).reverse.dropWhile Char.isWhitespace).reverse⟩

/-- Accumulating scanner behind `pySplitWhitespace`: `acc` holds the
current word reversed. -/
def splitWSAux : List Char → List Char → List String
  | acc, [] => if acc.isEmpty then [] else [⟨acc.reverse⟩]
  | acc, c :: cs =>
    if c.isWhitespace then
      if acc.isEmpty then splitWSAux [] cs
      else (⟨acc.reverse⟩ : String) :: splitWSAux [] cs
    else splitWSAux (c :: acc) cs

/-- Python `str.split()` with no argument: split on whitespace runs and drop
empty pieces. -/
def pySplitWhitespace (s : String) : List String :=
  splitWSAux [] s.data

/-- The distinct members of a word list (Python `set(...)`, as a list). -/
def distinctWords : List String → List String
  | [] => []
  | w :: ws => if ws.contains w then distinctWords ws else w :: distinctWords ws

/-- Python `len` on a string (number of characters). -/
def pyLen (s : String) : Nat :=
  s.data.length

/-! ### Data model (`src/backend/app/graph/state.py`)

`ResearchData` list categories hold JSON dicts in Python; the element type is
kept abstract as `α`.  The curricula category receives whole tool-result
dicts, so it is typed by the modelled dict shape `ToolDict`. -/

/-- Shape `ToolCall` from `state.py`: name plus (uninterpreted) arguments. -/
structure ToolCall where
  name : String
  arguments : List (String × String)
  deriving DecidableEq, Repr

/-- The dict shapes produced by tools and consumed by
`_update_research_data`.  Each `Option` field models presence of the
corresponding key (`"courses" in tool_data`, etc.); `extraKeys` records
whether the dict carries further keys (it only affects Python truthiness). -/
structure ToolDict (α : Type) where
  courses : Option (List α) := none
  lesson_frequency : Option (List α) := none
  trending_topics : Option (List α) := none
  reddit : Option (List α) := none
  quora : Option (List α) := none
  price_analysis : Option α := none
  sentiment : Option α := none
  extraKeys : Bool := false
  deriving DecidableEq, Repr

/-- A tool's `data` payload: Python `None`, a JSON list, or a JSON dict. -/
inductive ToolData (α : Type) where
  | none
  | list (xs : List α)
  | dict (d : ToolDict α)
  deriving DecidableEq, Repr

/-- Python truthiness of a `ToolDict` (empty dict is falsy). -/
def ToolDict.truthy {α : Type} (d : ToolDict α) : Bool :=
  d.courses.isSome || d.lesson_frequency.isSome || d.trending_topics.isSome ||
  d.reddit.isSome || d.quora.isSome || d.price_analysis.isSome ||
  d.sentiment.isSome || d.extraKeys

/-- Python truthiness of a tool `data` value (`None`, `[]` and `{}` are
falsy). -/
def ToolData.truthy {α : Type} : ToolData α → Bool
  | .none => false
  | .list xs => !xs.isEmpty
  | .dict d => d.truthy

/-- Shape `ToolResult` from `state.py`. -/
structure ToolResult (α : Type) where
  tool_name : String
  success : Bool
  data : ToolData α
  error : Option String
  deriving DecidableEq, Repr

/-- Shape `ReflectionResult` from `state.py`. -/
structure ReflectionResult where
  is_valid : Bool
  is_relevant : Bool
  is_sufficient : Bool
  next_action : String
  reasoning : String
  missing_data : List String
  deriving DecidableEq, Repr

/-- Shape `ResearchData` from `state.py`: the per-session accumulator. -/
structure ResearchData (α : Type) where
  competitors : List α := []
  curricula : List (ToolDict α) := []
  courses : List α := []
  lesson_frequency : List α := []
  module_inventory : List α := []
  tiered_courses : List (String × List α) := []
  reddit_posts : List α := []
  quora_answers : List α := []
  podcasts : List α := []
  blogs : List α := []
  sentiment_summary : Option α := none
  trending_topics : List α := []
  price_analysis : Option α := none
  deriving DecidableEq, Repr

/-- Shape `ResearchPlan` as used by the clarification node. -/
structure ResearchPlan where
  industry : String
  selected_competitors : List String := []
  selected_certifications : List String := []
  selected_audience : String := "All levels"
  is_confirmed : Bool := false
  deriving DecidableEq, Repr

/-- Shape `ClarificationState` as used by the clarification node. -/
structure ClarificationState where
  stage : String
  iteration : Nat := 1
  user_feedback : List String := []
  is_complete : Bool := false
  deriving DecidableEq, Repr

/-- The slice of `AgentState` read by the routing and reflection code. -/
structure AgentState (α : Type) where
  research_data : ResearchData α
  research_plan : Option ResearchPlan := none
  clarification : Option ClarificationState := none
  awaiting_clarification : Bool := false
  current_tool_call : Option ToolCall := none
  current_tool_result : Option (ToolResult α) := none
  reflection_result : Option ReflectionResult := none
  tool_call_count : Nat := 0
  retry_count : Nat := 0
  deriving DecidableEq, Repr

/-! ### Routing after reflection (`graph.py`, `route_after_reflection`) -/

/-- Router `route_after_reflection` from `graph.py`: go to response as soon as any
courses exist, or after two tool calls; otherwise loop back to reasoning. -/
def route_after_reflection {α : Type} (state : AgentState α) : String :=
  let courses := state.research_data.courses
  if courses.length > 0 then "response"
  else if state.tool_call_count ≥ 2 then "response"
  else "reasoning"

/-- An always-insufficient qualitative verdict, used to build concrete
states in which the LLM judgment never requests response. -/
def insufficientVerdict : ReflectionResult :=
  { is_valid := true, is_relevant := true, is_sufficient := false
    next_action := "call_more_tools", reasoning := "need more data"
    missing_data := [] }

/-- Concrete state refuting the claimed 4-call/3-retry safety ceiling: no
courses, two tool calls, zero retries, insufficient verdict. -/
def ceilingCounterexampleState : AgentState Nat :=
  { research_data := {}
    reflection_result := some insufficientVerdict
    tool_call_count := 2
    retry_count := 0 }

/-! ### Reflection merge step (`reflection.py`, `_update_research_data`) -/

/-- The `search_google` / `search_course_rankings` accumulation loop:
append each incoming item unless it is already present (membership is
checked against the list as it grows, so in-payload duplicates are added
once). -/
def appendIfAbsent {α : Type} [DecidableEq α] (acc : List α) (xs : List α) : List α :=
  xs.foldl (fun acc r => if r ∈ acc then acc else acc ++ [r]) acc

/-- Function `_update_research_data` from `reflection.py`: the per-tool merge of a
successful tool result's payload into the accumulator. -/
def update_research_data {α : Type} [DecidableEq α]
    (current : ResearchData α) (tool_name : String) (tool_data : ToolData α) :
    ResearchData α :=
  if tool_name = "search_google" ∧ tool_data.truthy then
    match tool_data with
    | .list xs => { current with competitors := appendIfAbsent current.competitors xs }
    | _ => current
  else if tool_name = "discover_courses_with_rankings" ∧ tool_data.truthy then
    match tool_data with
    | .dict d =>
      { current with
        courses := current.courses ++ d.courses.getD []
        lesson_frequency := current.lesson_frequency ++ d.lesson_frequency.getD []
        price_analysis := match d.price_analysis with
          | some p => some p
          | none => current.price_analysis
        trending_topics := current.trending_topics ++ d.trending_topics.getD [] }
    | _ => current
  else if tool_name = "extract_course_lessons" ∧ tool_data.truthy then
    match tool_data with
    | .dict d => { current with curricula := current.curricula ++ [d] }
    | _ => current
  else if tool_name = "search_course_rankings" ∧ tool_data.truthy then
    match tool_data with
    | .dict d =>
      match d.courses with
      | some cs => { current with courses := appendIfAbsent current.courses cs }
      | none => current
    | _ => current
  else if tool_name = "search_all_forums" ∧ tool_data.truthy then
    match tool_data with
    | .dict d =>
      { current with
        reddit_posts := current.reddit_posts ++ d.reddit.getD []
        quora_answers := current.quora_answers ++ d.quora.getD [] }
    | _ => current
  else if tool_name = "scrape_webpage" ∧ tool_data.truthy then
    match tool_data with
    | .dict d => { current with curricula := current.curricula ++ [d] }
    | _ => current
  else if tool_name = "search_reddit" ∧ tool_data.truthy then
    match tool_data with
    | .list xs => { current with reddit_posts := current.reddit_posts ++ xs }
    | _ => current
  else if tool_name = "search_quora" ∧ tool_data.truthy then
    match tool_data with
    | .list xs => { current with quora_answers := current.quora_answers ++ xs }
    | _ => current
  else if (tool_name = "find_podcasts" ∨ tool_name = "find_educational_podcasts") ∧ tool_data.truthy then
    match tool_data with
    | .list xs => { current with podcasts := current.podcasts ++ xs }
    | _ => current
  else if tool_name = "find_blogs" ∧ tool_data.truthy then
    match tool_data with
    | .list xs => { current with blogs := current.blogs ++ xs }
    | _ => current
  else if tool_name = "analyze_content" ∧ tool_data.truthy then
    match tool_data with
    | .dict d =>
      { current with
        sentiment_summary := match d.sentiment with
          | some s => some s
          | none => current.sentiment_summary
        trending_topics := current.trending_topics ++ d.trending_topics.getD [] }
    | _ => current
  else current

/-! ### Reflection node (`reflection.py`, `reflection_node`)

The node returns a partial state update (a Python dict); a field that is
`none` below models a key absent from the returned dict, i.e. the
corresponding state entry is left untouched by LangGraph's merge.  The
qualitative LLM verdict parsed on the success path is an oracle
parameter, as is the session cache `_session_research_data` entry. -/

/-- The partial state update returned by the reflection node. -/
structure ReflectionUpdate (α : Type) where
  reflection_result : ReflectionResult
  next_node : String
  retry_count : Option Nat := none
  research_data : Option (ResearchData α) := none
  tool_call_count : Option Nat := none
  deriving DecidableEq, Repr

/-- Node `reflection_node` from `reflection.py`.  `llmVerdict` is the parsed
reflection returned by the completion service on the success path;
`cache` is the `_session_research_data` entry for this session. -/
def reflection_node {α : Type} [DecidableEq α]
    (state : AgentState α) (llmVerdict : ReflectionResult)
    (cache : Option (ResearchData α)) : ReflectionUpdate α :=
  match state.current_tool_result with
  | none =>
    { reflection_result :=
        { is_valid := false, is_relevant := false, is_sufficient := false
          next_action := "call_more_tools"
          reasoning := "No tool result to reflect on"
          missing_data := ["tool_result"] }
      next_node := "reasoning" }
  | some tool_result =>
    if !tool_result.success then
      { reflection_result :=
          { is_valid := false, is_relevant := false, is_sufficient := false
            next_action := "call_more_tools"
            reasoning := "Tool failed: " ++ (tool_result.error.getD "Unknown error")
            missing_data := ["retry_" ++ tool_result.tool_name] }
        next_node := "reasoning"
        retry_count := some (state.retry_count + 1) }
    else
      let existing_research := cache.getD state.research_data
      let updated_research :=
        update_research_data existing_research tool_result.tool_name tool_result.data
      { reflection_result := llmVerdict
        research_data := some updated_research
        next_node := if llmVerdict.is_sufficient then "response" else "reasoning"
        tool_call_count := some (state.tool_call_count + 1) }

/-- The value of `tool_call_count` after LangGraph applies a reflection
update to `state` (an absent key leaves the old value). -/
def toolCallCountAfter {α : Type} (state : AgentState α) (u : ReflectionUpdate α) : Nat :=
  u.tool_call_count.getD state.tool_call_count

/-- The value of `retry_count` after LangGraph applies a reflection update
to `state`. -/
def retryCountAfter {α : Type} (state : AgentState α) (u : ReflectionUpdate α) : Nat :=
  u.retry_count.getD state.retry_count

/-! ### Tool executor (`tool_executor.py`) and the compiled graph wiring -/

/-- The outcome of one tool executor pass: the partial update it returns
plus the list of actual tool invocations it performed. -/
structure ToolExecOutcome (α : Type) where
  current_tool_result : ToolResult α
  next_node : String
  invoked : List ToolCall
  deriving DecidableEq, Repr

/-- Node `tool_executor_node` from `tool_executor.py`.  `execute` is the tool
registry: `.ok` models a normal return, `.error` a raised exception whose
message the node captures. -/
def tool_executor_node {α : Type}
    (current_tool_call : Option ToolCall)
    (execute : ToolCall → Except String (ToolData α)) : ToolExecOutcome α :=
  match current_tool_call with
  | none =>
    { current_tool_result :=
        { tool_name := "unknown", success := false, data := .none
          error := some "No tool call specified" }
      next_node := "reflection"
      invoked := [] }
  | some tool_call =>
    match execute tool_call with
    | .ok result =>
      { current_tool_result :=
          { tool_name := tool_call.name, success := true, data := result
            error := none }
        next_node := "reflection"
        invoked := [tool_call] }
    | .error msg =>
      { current_tool_result :=
          { tool_name := tool_call.name, success := false, data := .none
            error := some msg }
        next_node := "reflection"
        invoked := [tool_call] }

/-- The graph's node set (`create_research_graph` in `graph.py`). -/
inductive Node where
  | entry
  | clarificationNode
  | reasoningNode
  | toolExecutor
  | reflectionNode
  | responseNode
  | endNode
  deriving DecidableEq, Repr

/-- The edge structure compiled by `create_research_graph`: each router's
possible targets, plus the unconditional `tool_executor → reflection`
edge. -/
def graphEdge : Node → Node → Bool
  | .entry, .clarificationNode => true
  | .entry, .reasoningNode => true
  | .clarificationNode, .reasoningNode => true
  | .clarificationNode, .endNode => true
  | .reasoningNode, .toolExecutor => true
  | .reasoningNode, .responseNode => true
  | .toolExecutor, .reflectionNode => true
  | .reflectionNode, .reasoningNode => true
  | .reflectionNode, .responseNode => true
  | .responseNode, .endNode => true
  | _, _ => false

/-- A finite execution trace of the compiled graph: consecutive entries
are connected by graph edges. -/
def IsTrace (t : List Node) : Prop :=
  ∀ i : Nat, i + 1 < t.length → graphEdge (t.getD i .entry) (t.getD (i + 1) .entry) = true

/-! ### Clarification classifiers (`clarification.py`)

The source uses `re.search` with patterns of the shape
`\b<literal with optional letters>\b` (some feedback patterns omit the
trailing `\b`).  Each such pattern is expanded below into its finite set of
literal alternatives; a small matcher implements word-boundary search over
characters, which coincides with `re.search` on these patterns because
every alternative starts and ends with a word character. -/

/-- Regex `\w` on the ASCII strings involved. -/
def isWordChar (c : Char) : Bool :=
  c.isAlpha || c.isDigit || c = '_'

/-- A word pattern: the literal characters and whether the match must end
at a word boundary (`\b` after the literal). -/
structure WordPat where
  phrase : String
  boundedEnd : Bool := true
  deriving Repr

/-- Match a literal at the head of the text and, when `bounded` is set,
require a word boundary right after it (`\\b` after the literal). -/
def matchWordEnd (bounded : Bool) : List Char → List Char → Bool
  | [], rest =>
    !bounded ||
    (match rest with
      | [] => true
      | c :: _ => !isWordChar c)
  | _ :: _, [] => false
  | p :: ps, c :: cs => p == c && matchWordEnd bounded ps cs

/-- Whether a position (just after optional previous character `prev`)
starts a boundary-respecting occurrence of `pat` somewhere in `s`. -/
def searchWordAux (pat : WordPat) (prev : Option Char) (s : List Char) : Bool :=
  (match prev with
    | Option.none => true
    | some c => !isWordChar c) &&
  (matchWordEnd pat.boundedEnd pat.phrase.data s) ||
  (match s with
    | [] => false
    | c :: cs => searchWordAux pat (some c) cs)

/-- Search (Python `re.search`) of a word-bounded literal pattern in `s`. -/
def searchWord (pat : WordPat) (s : String) : Bool :=
  searchWordAux pat Option.none s.data

/-- Search of a pattern given by finitely many literal alternatives. -/
def searchAlts (alts : List WordPat) (s : String) : Bool :=
  alts.any (fun p => searchWord p s)

/-- The `confirmation_patterns` list from `clarification.py`, with each
regex expanded into its literal alternatives (`confirmed?` matches
`confirme` or `confirmed`, `approve[d]?` matches `approve` or `approved`,
`let'?s go` matches `lets go` or `let's go`). -/
def confirmationPatterns : List (List WordPat) :=
  [ [⟨"yes", true⟩], [⟨"proceed", true⟩], [⟨"go ahead", true⟩], [⟨"looks good", true⟩],
    [⟨"confirme", true⟩, ⟨"confirmed", true⟩], [⟨"start research", true⟩],
    [⟨"approve", true⟩, ⟨"approved", true⟩],
    [⟨"ok", true⟩], [⟨"okay", true⟩], [⟨"perfect", true⟩], [⟨"great", true⟩],
    [⟨"lets go", true⟩, ⟨"let's go", true⟩], [⟨"do it", true⟩], [⟨"begin", true⟩] ]

/-- The `feedback_indicators` list from `clarification.py` (`audienc`,
`provider` and `certif` have no trailing `\b`). -/
def feedbackIndicators : List (List WordPat) :=
  [ [⟨"target", true⟩], [⟨"focus", true⟩], [⟨"remove", true⟩], [⟨"add", true⟩],
    [⟨"change", true⟩], [⟨"update", true⟩], [⟨"include", true⟩], [⟨"exclude", true⟩],
    [⟨"beginner", true⟩, ⟨"beginners", true⟩], [⟨"starter", true⟩, ⟨"starters", true⟩],
    [⟨"advanced", true⟩], [⟨"intermediate", true⟩],
    [⟨"audienc", false⟩], [⟨"provider", false⟩], [⟨"certif", false⟩] ]

/-- Test `is_confirmation_pattern` from the feedback-processing stage of
`clarification_node`. -/
def isConfirmationPattern (msgLower : String) : Bool :=
  confirmationPatterns.any (fun p => searchAlts p msgLower)

/-- Test `has_feedback_indicators` from the feedback-processing stage of
`clarification_node`. -/
def hasFeedbackIndicators (msgLower : String) : Bool :=
  feedbackIndicators.any (fun p => searchAlts p msgLower)

/-- Classifier `is_confirmed` in `clarification_node`: a reply in the
`presenting_plan`/`refining` stage counts as confirmation exactly when it
matches an approval pattern, is under 50 characters, and triggers no
feedback indicator. -/
def classifiesAsConfirmation (last_user_message : String) : Bool :=
  let msgLower := pyStrip (pyLower last_user_message)
  isConfirmationPattern msgLower &&
  (pyLen last_user_message < 50) &&
  !hasFeedbackIndicators msgLower

/-- Heuristic `_is_new_research_request` from `clarification.py`: the new-topic
heuristic combining research-intent phrases, feedback phrases, and
keyword overlap with the current industry. -/
def is_new_research_request (message : String) (current_industry : Option String) : Bool :=
  let msgLower := pyStrip (pyLower message)
  let new_research_indicators : List String :=
    [ "i want to", "want to research", "research on", "research about",
      "courses on", "courses about", "courses for", "training on", "training for",
      "curriculum for", "curriculum on", "write a course", "create a course",
      "build a course", "develop a course", "learn about", "teach me",
      "i need courses", "looking for courses", "find courses" ]
  let feedback_patterns : List String :=
    [ "remove", "add ", "focus on", "proceed", "yes", "no", "ok", "okay",
      "looks good", "go ahead", "confirm", "start research", "approved",
      "include", "exclude", "target", "great", "perfect", "change" ]
  let has_research_intent := new_research_indicators.any (fun p => strContains msgLower p)
  let looks_like_feedback :=
    feedback_patterns.any (fun p => strContains msgLower p) && pyLen message < 100
  if has_research_intent && !looks_like_feedback then
    match current_industry with
    | some industry =>
      let current_keywords := distinctWords (pySplitWhitespace (pyLower industry))
      let message_keywords := pySplitWhitespace msgLower
      let overlap := current_keywords.filter (fun w => message_keywords.contains w)
      decide (overlap.length < 2)
    | Option.none => true
  else false

/-- The new-topic safety check at the top of `clarification_node`
(lines 86–101): determine the effective stage and plan after the forced
fresh-discovery reset.  Returns `(stage, research_plan)`. -/
def clarificationSafetyCheck
    (clarification : Option ClarificationState)
    (research_plan : Option ResearchPlan)
    (last_user_message : String)
    (user_message_count : Nat) : String × Option ResearchPlan :=
  let stage := match clarification with
    | some c => c.stage
    | Option.none => "discovery"
  let current_industry := research_plan.map (fun p => p.industry)
  let is_new_topic := is_new_research_request last_user_message current_industry
  if user_message_count = 1 ∨ (is_new_topic ∧ research_plan.isSome) then
    ("discovery", Option.none)
  else
    (stage, research_plan)

/-! ### Reasoning parse fallback (`reasoning.py`)

`json.loads` is an external library routine; it is passed in as an oracle
`loads : String → Option Json` (`none` models `json.JSONDecodeError`).
The block extraction and the post-parse dispatch follow the source. -/

/-- Decoded JSON values as produced by `json.loads`. -/
inductive Json where
  | null
  | bool (b : Bool)
  | num (n : Int)
  | str (s : String)
  | arr (xs : List Json)
  | obj (fields : List (String × Json))

/-- Dict lookup (`result["action"]`, `result.get("thinking", "")`). -/
def Json.lookup (key : String) : Json → Option Json
  | .obj fields =>
    match fields.find? (fun kv => kv.fst = key) with
    | some kv => some kv.snd
    | Option.none => Option.none
  | _ => Option.none

/-- The characters of `s` that follow the first occurrence of `pat`
(whole string if `pat` does not occur). -/
def charsAfterFirst (pat : List Char) : List Char → List Char
  | [] => []
  | c :: cs =>
    if charsBegins pat (c :: cs) then (c :: cs).drop pat.length
    else charsAfterFirst pat cs

/-- The characters of `s` before the first occurrence of `pat`
(whole string if `pat` does not occur). -/
def charsBeforeFirst (pat : List Char) : List Char → List Char
  | [] => []
  | c :: cs =>
    if charsBegins pat (c :: cs) then []
    else c :: charsBeforeFirst pat cs

/-- The JSON-block extraction in `_parse_reasoning_response`: take the
fenced block after ```` ```json ```` (or after a bare fence) and before
the next fence, stripped; with no fences, the stripped text itself.  For
these patterns Python's `content.split(sep)[1].split("```")[0]` is the
text between the first occurrence of `sep` and the next fence. -/
def extractJsonBlock (content : String) : String :=
  if strContains content "```json" then
    pyStrip ⟨charsBeforeFirst "```".data (charsAfterFirst "```json".data content.data)⟩
  else if strContains content "```" then
    pyStrip ⟨charsBeforeFirst "```".data (charsAfterFirst "```".data content.data)⟩
  else
    pyStrip content

/-- What one reasoning pass does after the completion text arrives:
either a partial state update or a propagated Python exception. -/
inductive ReasoningOutcome where
  | update (next_node : String) (tool_call : Option ToolCall)
      (message : Option String) (error : Option String)
  | raised (exceptionKind : String)

/-- Function `_parse_reasoning_response` from `reasoning.py`: decode the extracted
block, or fall back to a synthetic `respond` dict carrying the raw
completion text (the source's `if "respond" in content.lower()` test picks
between two identical fallback dicts, so it is collapsed here). -/
def parse_reasoning_response (loads : String → Option Json) (content : String) : Json :=
  match loads (extractJsonBlock content) with
  | some j => j
  | Option.none => .obj [("action", .str "respond"), ("thinking", .str content)]

/-- Python `str(x)` for the argument positions the reasoning node feeds to
`ToolCall(...)`; only its use as an opaque payload matters here. -/
def jsonArgsPlaceholder : List (String × String) := []

/-- The decision dispatch of `reasoning_node` (lines 120–167): run the
parse step inside `try`, then branch on `result["action"]`.  A non-dict
parse triggers the `except` branch (the `result.get` call inside the
`try` raises `AttributeError`); a dict without `"action"`, or a
`call_tool` dict without `"tool_name"`/`"tool_arguments"`, raises an
uncaught `KeyError` outside the `try`. -/
def reasoning_decision (loads : String → Option Json) (content : String) : ReasoningOutcome :=
  let result := parse_reasoning_response loads content
  match result with
  | .obj _ =>
    match result.lookup "action" with
    | some (.str "ask_question") =>
      let question := match result.lookup "question" with
        | some (.str q) => q
        | _ => "Could you please provide more details?"
      let options := match result.lookup "options" with
        | some (.arr xs) =>
          xs.filterMap (fun j => match j with | Json.str s => some s | _ => Option.none)
        | _ => []
      let question_text :=
        if options.isEmpty then question
        else question ++ "\n\n" ++ String.intercalate "\n" (options.map (fun o => "- " ++ o))
      .update "response" Option.none (some question_text) Option.none
    | some (.str "call_tool") =>
      match result.lookup "tool_name", result.lookup "tool_arguments" with
      | some nameVal, some _ =>
        let name := match nameVal with | .str s => s | _ => ""
        .update "tool_executor" (some ⟨name, jsonArgsPlaceholder⟩) Option.none Option.none
      | _, _ => .raised "KeyError"
    | some _ =>
      let thinking := match result.lookup "thinking" with
        | some (.str t) => t
        | _ => ""
      .update "response" Option.none (some thinking) Option.none
    | Option.none => .raised "KeyError"
  | _ =>
    .update "response" Option.none Option.none
      (some "Failed to parse reasoning response")

/-! ### Multi-phase deep-research orchestrator
(`research_orchestrator.py`) -/

/-- Enum `ResearchPhase` from `research_orchestrator.py`. -/
inductive ResearchPhase where
  | initial
  | clarification
  | competitive
  | expertise
  | sentiment
  | synthesis
  | complete
  deriving DecidableEq, Repr

/-- The `continue_signals` list of `_handle_competitive_feedback`. -/
def competitiveContinueSignals : List String :=
  [ "continue", "next", "proceed", "looks good", "move on", "phase 2",
    "expertise", "go ahead", "ok", "okay", "yes", "good", "great", "perfect" ]

/-- The `continue_signals` list of `_handle_expertise_feedback`. -/
def expertiseContinueSignals : List String :=
  [ "continue", "next", "proceed", "looks good", "move on", "phase 3",
    "sentiment", "go ahead", "ok", "okay", "yes", "good", "great", "perfect" ]

/-- The `continue_signals` list of `_handle_sentiment_feedback`. -/
def sentimentContinueSignals : List String :=
  [ "continue", "next", "proceed", "looks good", "move on", "final",
    "synthesis", "generate", "go ahead", "ok", "okay", "yes", "good", "great", "perfect" ]

/-- Python `any(signal in lower for signal in continue_signals)` on the lowered,
stripped feedback. -/
def hasContinueSignal (signals : List String) (feedback : String) : Bool :=
  let lower := pyStrip (pyLower feedback)
  signals.any (fun signal => strContains lower signal)

/-- The phase component of `CurriculumResearchOrchestrator.process_message`
after one full call: which `ResearchPhase` the session rests in once the
turn's generators have run to completion.  A continue-signal in
`sentiment` runs `_run_final_synthesis`, which passes through `synthesis`
and ends at `complete` within the same turn; `_handle_synthesis_feedback`
always refines in place; `complete` falls into the default branch, which
restarts at `clarification`. -/
def processMessagePhase (phase : ResearchPhase) (message : String) : ResearchPhase :=
  match phase with
  | .initial => .clarification
  | .clarification => .competitive
  | .competitive =>
    if hasContinueSignal competitiveContinueSignals message then .expertise
    else .competitive
  | .expertise =>
    if hasContinueSignal expertiseContinueSignals message then .sentiment
    else .expertise
  | .sentiment =>
    if hasContinueSignal sentimentContinueSignals message then .complete
    else .sentiment
  | .synthesis => .synthesis
  | .complete => .clarification

/-- The immediate-successor order claimed by the specification:
Clarification → Competitive → Expertise → Sentiment → Synthesis →
Complete. -/
def phaseSucc : ResearchPhase → ResearchPhase
  | .initial => .clarification
  | .clarification => .competitive
  | .competitive => .expertise
  | .expertise => .sentiment
  | .sentiment => .synthesis
  | .synthesis => .complete
  | .complete => .complete

/-! ### Auxiliary definitions used by the theorems below -/

/-- Pointwise `≤` on the item counts of every list-valued category of the
accumulator (the merge-monotonicity contract of the specification). -/
def researchCountsLE {α : Type} (a b : ResearchData α) : Prop :=
  a.competitors.length ≤ b.competitors.length ∧
  a.curricula.length ≤ b.curricula.length ∧
  a.courses.length ≤ b.courses.length ∧
  a.lesson_frequency.length ≤ b.lesson_frequency.length ∧
  a.module_inventory.length ≤ b.module_inventory.length ∧
  a.reddit_posts.length ≤ b.reddit_posts.length ∧
  a.quora_answers.length ≤ b.quora_answers.length ∧
  a.podcasts.length ≤ b.podcasts.length ∧
  a.blogs.length ≤ b.blogs.length ∧
  a.trending_topics.length ≤ b.trending_topics.length

/-- State with 12 courses already collected and an insufficient verdict:
the ≥10-floor scenario from the specification. -/
def twelveCoursesState : AgentState Nat :=
  { research_data := { courses := [1, 2, 3, 4, 5, 6, 7, 8, 9, 10, 11, 12] }
    reflection_result := some insufficientVerdict
    tool_call_count := 1 }

/-- The confirmed clarification state of a session whose plan was already
approved. -/
def confirmedClarification : ClarificationState :=
  { stage := "confirmed", iteration := 2, user_feedback := ["looks good"], is_complete := true }

/-- A confirmed research plan for "HVAC technician training". -/
def hvacPlan : ResearchPlan :=
  { industry := "HVAC technician training"
    selected_competitors := ["Penn Foster", "SkillCat"]
    selected_certifications := ["EPA 608"]
    is_confirmed := true }

/-- Concrete failed tool result for the reflection atomicity witness. -/
def failedSearchResult : ToolResult Nat :=
  { tool_name := "search_google", success := false, data := .none
    error := some "HTTP 500" }

/-- Concrete state holding a failed tool result. -/
def failedResultState : AgentState Nat :=
  { research_data := { courses := [7], competitors := [1, 2] }
    current_tool_result := some failedSearchResult
    tool_call_count := 1
    retry_count := 1 }

/-- A `json.loads` oracle for the completion `{"foo": 1}`: valid JSON that
is none of the three decision shapes (no `action` key). -/
def noActionLoads : String → Option Json :=
  fun s =>
    if s = "\x7b\"foo\": 1\x7d" then some (.obj [("foo", .num 1)])
    else Option.none

/-- The completion text `{"foo": 1}`. -/
def noActionContent : String := "\x7b\"foo\": 1\x7d"

/-- A `json.loads` oracle under which nothing decodes (every completion is
a decode error). -/
def alwaysFailLoads : String → Option Json := fun _ => Option.none

/-- A graph trace containing two tool-executor passes, for the
at-most-one-call witness. -/
def sampleTrace : List Node :=
  [ .entry, .reasoningNode, .toolExecutor, .reflectionNode,
    .reasoningNode, .toolExecutor, .reflectionNode, .responseNode, .endNode ]

/-- A tool registry oracle whose every invocation raises. -/
def failingRegistry : ToolCall → Except String (ToolData Nat) :=
  fun _ => .error "boom"

/-- A 50-character message (the shortest length the classifier must always
treat as feedback). -/
def fiftyCharMessage : String := ⟨List.replicate 50 'a'⟩

/-! ## Theorems -/

/-- C1 counterexample: with an insufficient qualitative verdict, no
courses, only 2 tool calls and 0 retries — strictly below the claimed
4-call/3-retry ceiling — the router after Reflection already forces
`response` instead of routing back to `reasoning`, so the claimed ceiling
("forced after exactly 4 tool calls or 3 retries, and not before") is
false on the code. -/
theorem route_after_reflection_ceiling_counterexample :
    ceilingCounterexampleState.reflection_result = some insufficientVerdict ∧
    insufficientVerdict.is_sufficient = false ∧
    ceilingCounterexampleState.tool_call_count < 4 ∧
    ceilingCounterexampleState.retry_count < 3 ∧
    ceilingCounterexampleState.research_data.courses = [] ∧
    route_after_reflection ceilingCounterexampleState = "response" :=
  ⟨rfl, rfl, by decide, by decide, rfl, rfl⟩

/-- C1 (amended): the router after Reflection forces `response` exactly
when some course has been collected or at least 2 tool calls were made,
and routes back to `reasoning` otherwise; `retry_count` and the
qualitative reflection verdict are never consulted. -/
theorem route_after_reflection_characterization {α : Type} (s : AgentState α) :
    (route_after_reflection s = "response" ↔
      0 < s.research_data.courses.length ∨ 2 ≤ s.tool_call_count) ∧
    (route_after_reflection s = "reasoning" ↔
      s.research_data.courses.length = 0 ∧ s.tool_call_count < 2) := by
  have hroute : route_after_reflection s =
      if 0 < s.research_data.courses.length then "response"
      else if 2 ≤ s.tool_call_count then "response" else "reasoning" := rfl
  rw [hroute]
  by_cases h1 : 0 < s.research_data.courses.length
  · rw [if_pos h1]
    refine ⟨⟨fun _ => Or.inl h1, fun _ => rfl⟩, ?_, ?_⟩
    · intro h
      exact absurd h (by decide)
    · intro h
      exact absurd h1 (by omega)
  · rw [if_neg h1]
    by_cases h2 : 2 ≤ s.tool_call_count
    · rw [if_pos h2]
      refine ⟨⟨fun _ => Or.inr h2, fun _ => rfl⟩, ?_, ?_⟩
      · intro h
        exact absurd h (by decide)
      · intro h
        exact absurd h2 (by omega)
    · rw [if_neg h2]
      refine ⟨⟨?_, ?_⟩, ⟨fun _ => ⟨by omega, by omega⟩, fun _ => rfl⟩⟩
      · intro h
        exact absurd h (by decide)
      · rintro (h | h)
        · exact absurd h h1
        · exact absurd h h2

/-- C4: ≥10 collected courses always routes to `response` after
Reflection, whatever the verdict and the counters (on this code any
nonempty course list already does). -/
theorem sufficiency_floor_routes_response {α : Type} (s : AgentState α)
    (h : 10 ≤ s.research_data.courses.length) :
    route_after_reflection s = "response" := by
  unfold route_after_reflection
  have hpos : 0 < s.research_data.courses.length := by omega
  simp [hpos]

/-- C4 witness: the specification's scenario state with 12 courses and an
insufficient verdict is routed to `response`. -/
theorem sufficiency_floor_routes_response_witness :
    10 ≤ twelveCoursesState.research_data.courses.length ∧
    route_after_reflection twelveCoursesState = "response" :=
  ⟨by decide, sufficiency_floor_routes_response twelveCoursesState (by decide)⟩

/-- C2 counterexample: on the message "I want a course on Python
programming" with current industry "HVAC technician training", the
new-topic detection does NOT fire (the message contains none of the
code's research-intent phrases), and consequently the clarification
node's safety check leaves the confirmed plan and its stage untouched —
so the claimed reset does not happen on this input. -/
theorem new_topic_detection_counterexample :
    is_new_research_request "I want a course on Python programming"
      (some "HVAC technician training") = false ∧
    clarificationSafetyCheck (some confirmedClarification) (some hvacPlan)
      "I want a course on Python programming" 5 =
      ("confirmed", some hvacPlan) :=
  ⟨rfl, rfl⟩

/-- C2 (amended): the reset fires only for messages containing one of the
research-intent indicator phrases.  The rephrased request "I want to
research Python programming" contains the phrase "i want to", shares no
two keywords with "HVAC technician training", so the detection fires and
the clarification node's safety check resets the stage to `discovery`
and clears `research_plan`. -/
theorem new_topic_detection_reset :
    is_new_research_request "I want to research Python programming"
      (some "HVAC technician training") = true ∧
    clarificationSafetyCheck (some confirmedClarification) (some hvacPlan)
      "I want to research Python programming" 5 =
      ("discovery", Option.none) :=
  ⟨rfl, rfl⟩

/-- Accumulating with `appendIfAbsent` never shortens the accumulator. -/
theorem length_le_appendIfAbsent {α : Type} [DecidableEq α] (acc xs : List α) :
    acc.length ≤ (appendIfAbsent acc xs).length := by
  induction xs generalizing acc with
  | nil => simp [appendIfAbsent]
  | cons x xs ih =>
    unfold appendIfAbsent at ih ⊢
    simp only [List.foldl_cons]
    refine le_trans ?_ (ih _)
    split
    · exact le_refl _
    · simp

set_option maxHeartbeats 1000000 in
theorem update_research_data_monotone {α : Type} [DecidableEq α]
    (tool_name : String) (td : ToolData α) (cur : ResearchData α) :
    researchCountsLE cur (update_research_data cur tool_name td) := by
  unfold researchCountsLE update_research_data
  by_cases h1 : tool_name = "search_google" ∧ ToolData.truthy td = true
  · rw [if_pos h1]
    cases td <;> simp [length_le_appendIfAbsent]
  · rw [if_neg h1]
    by_cases h2 : tool_name = "discover_courses_with_rankings" ∧ ToolData.truthy td = true
    · rw [if_pos h2]
      cases td <;> simp
    · rw [if_neg h2]
      by_cases h3 : tool_name = "extract_course_lessons" ∧ ToolData.truthy td = true
      · rw [if_pos h3]
        cases td <;> simp
      · rw [if_neg h3]
        by_cases h4 : tool_name = "search_course_rankings" ∧ ToolData.truthy td = true
        · rw [if_pos h4]
          cases td with
          | none => simp
          | list xs => simp
          | dict d => rcases hc : d.courses with _ | cs <;> simp [hc, length_le_appendIfAbsent]
        · rw [if_neg h4]
          by_cases h5 : tool_name = "search_all_forums" ∧ ToolData.truthy td = true
          · rw [if_pos h5]
            cases td <;> simp
          · rw [if_neg h5]
            by_cases h6 : tool_name = "scrape_webpage" ∧ ToolData.truthy td = true
            · rw [if_pos h6]
              cases td <;> simp
            · rw [if_neg h6]
              by_cases h7 : tool_name = "search_reddit" ∧ ToolData.truthy td = true
              · rw [if_pos h7]
                cases td <;> simp
              · rw [if_neg h7]
                by_cases h8 : tool_name = "search_quora" ∧ ToolData.truthy td = true
                · rw [if_pos h8]
                  cases td <;> simp
                · rw [if_neg h8]
                  by_cases h9 : (tool_name = "find_podcasts" ∨ tool_name = "find_educational_podcasts") ∧ ToolData.truthy td = true
                  · rw [if_pos h9]
                    cases td <;> simp
                  · rw [if_neg h9]
                    by_cases h10 : tool_name = "find_blogs" ∧ ToolData.truthy td = true
                    · rw [if_pos h10]
                      cases td <;> simp
                    · rw [if_neg h10]
                      by_cases h11 : tool_name = "analyze_content" ∧ ToolData.truthy td = true
                      · rw [if_pos h11]
                        cases td <;> simp
                      · rw [if_neg h11]
                        simp


set_option maxHeartbeats 1000000 in
/-- C3: the per-tool merge contract and merge monotonicity.  The first
seven conjuncts state the specification table for well-shaped payloads of
each listed tool; the final conjunct states that for every tool name
(recognized or not) and every payload, no list-valued category of the
accumulator loses items. -/
theorem merge_contract_and_monotonicity {α : Type} [DecidableEq α] :
    (∀ (cur : ResearchData α) (cs lf tt : List α) (pa : α),
      update_research_data cur "discover_courses_with_rankings"
          (.dict { courses := some cs, lesson_frequency := some lf
                   trending_topics := some tt, price_analysis := some pa }) =
        { cur with
          courses := cur.courses ++ cs
          lesson_frequency := cur.lesson_frequency ++ lf
          trending_topics := cur.trending_topics ++ tt
          price_analysis := some pa }) ∧
    (∀ (cur : ResearchData α) (d : ToolDict α), d.truthy = true →
      update_research_data cur "extract_course_lessons" (.dict d) =
        { cur with curricula := cur.curricula ++ [d] }) ∧
    (∀ (cur : ResearchData α) (rs qs : List α),
      update_research_data cur "search_all_forums"
          (.dict { reddit := some rs, quora := some qs }) =
        { cur with
          reddit_posts := cur.reddit_posts ++ rs
          quora_answers := cur.quora_answers ++ qs }) ∧
    (∀ (cur : ResearchData α) (x : α) (xs : List α),
      update_research_data cur "find_podcasts" (.list (x :: xs)) =
          { cur with podcasts := cur.podcasts ++ x :: xs } ∧
      update_research_data cur "find_educational_podcasts" (.list (x :: xs)) =
          { cur with podcasts := cur.podcasts ++ x :: xs }) ∧
    (∀ (cur : ResearchData α) (x : α) (xs : List α),
      update_research_data cur "find_blogs" (.list (x :: xs)) =
        { cur with blogs := cur.blogs ++ x :: xs }) ∧
    (∀ (cur : ResearchData α) (x : α) (xs : List α),
      update_research_data cur "search_google" (.list (x :: xs)) =
        { cur with competitors := appendIfAbsent cur.competitors (x :: xs) }) ∧
    (∀ (cur : ResearchData α) (senti : α) (tt : List α),
      update_research_data cur "analyze_content"
          (.dict { sentiment := some senti, trending_topics := some tt }) =
        { cur with
          sentiment_summary := some senti
          trending_topics := cur.trending_topics ++ tt }) ∧
    (∀ (tool_name : String) (td : ToolData α) (cur : ResearchData α),
      researchCountsLE cur (update_research_data cur tool_name td)) := by
  refine ⟨fun cur cs lf tt pa => rfl, ?_, fun cur rs qs => rfl,
         fun cur x xs => ⟨rfl, rfl⟩, fun cur x xs => rfl, fun cur x xs => rfl,
         fun cur senti tt => rfl,
         fun tool_name td cur => update_research_data_monotone tool_name td cur⟩
  intro cur d hd
  unfold update_research_data
  rw [if_neg (fun h => absurd h.1 (by decide)),
      if_neg (fun h => absurd h.1 (by decide)),
      if_pos ⟨rfl, hd⟩]

/-- C3 witness: merging a concrete lesson-extraction payload into the
empty accumulator appends exactly that one curriculum item. -/
theorem merge_contract_and_monotonicity_witness :
    update_research_data ({} : ResearchData Nat) "extract_course_lessons"
        (.dict { courses := some [1] }) =
      { ({} : ResearchData Nat) with curricula := [{ courses := some [1] }] } :=
  merge_contract_and_monotonicity.2.1 {} { courses := some [1] } rfl

/-- C5: a missing or failed tool result makes Reflection return an
insufficient verdict, hand control back to Reasoning, and touch neither
`research_data` nor `tool_call_count`; a failed result present in the
state increments `retry_count` by exactly one. -/
theorem failed_result_atomicity {α : Type} [DecidableEq α]
    (state : AgentState α) (llmVerdict : ReflectionResult)
    (cache : Option (ResearchData α))
    (h : state.current_tool_result = Option.none ∨
      ∃ tr, state.current_tool_result = some tr ∧ tr.success = false) :
    (reflection_node state llmVerdict cache).reflection_result.is_sufficient = false ∧
    (reflection_node state llmVerdict cache).next_node = "reasoning" ∧
    (reflection_node state llmVerdict cache).research_data = Option.none ∧
    (reflection_node state llmVerdict cache).tool_call_count = Option.none ∧
    (∀ tr, state.current_tool_result = some tr →
      (reflection_node state llmVerdict cache).retry_count = some (state.retry_count + 1)) := by
  rcases h with h | ⟨tr, htr, hfail⟩
  · simp [reflection_node, h]
  · simp [reflection_node, htr, hfail]

/-- C5 witness: on a concrete state carrying a failed `search_google`
result with `retry_count = 1`, Reflection reports insufficient, routes to
reasoning, leaves the accumulator update absent, and returns retry count
2. -/
theorem failed_result_atomicity_witness :
    (reflection_node failedResultState insufficientVerdict Option.none).reflection_result.is_sufficient = false ∧
    (reflection_node failedResultState insufficientVerdict Option.none).next_node = "reasoning" ∧
    (reflection_node failedResultState insufficientVerdict Option.none).research_data = Option.none ∧
    (reflection_node failedResultState insufficientVerdict Option.none).retry_count = some 2 :=
  have H := failed_result_atomicity failedResultState insufficientVerdict Option.none
    (Or.inr ⟨failedSearchResult, rfl, rfl⟩)
  ⟨H.1, H.2.1, H.2.2.1, H.2.2.2.2 failedSearchResult rfl⟩

/-- C10: after one Reflection pass, `tool_call_count` grows by exactly one
iff the current tool result is present and successful, and `retry_count`
grows by exactly one iff it is present and failed; in every other case
each counter is unchanged, so failed calls never advance the router's
tool-call cutoff. -/
theorem counter_increment_invariant {α : Type} [DecidableEq α]
    (state : AgentState α) (llmVerdict : ReflectionResult)
    (cache : Option (ResearchData α)) :
    (toolCallCountAfter state (reflection_node state llmVerdict cache) =
        state.tool_call_count + 1 ↔
      ∃ tr, state.current_tool_result = some tr ∧ tr.success = true) ∧
    (toolCallCountAfter state (reflection_node state llmVerdict cache) =
        state.tool_call_count ↔
      ¬ ∃ tr, state.current_tool_result = some tr ∧ tr.success = true) ∧
    (retryCountAfter state (reflection_node state llmVerdict cache) =
        state.retry_count + 1 ↔
      ∃ tr, state.current_tool_result = some tr ∧ tr.success = false) ∧
    (retryCountAfter state (reflection_node state llmVerdict cache) =
        state.retry_count ↔
      ¬ ∃ tr, state.current_tool_result = some tr ∧ tr.success = false) := by
  rcases htr : state.current_tool_result with _ | tr
  · simp [reflection_node, toolCallCountAfter, retryCountAfter, htr]
  · rcases hs : tr.success
    · simp [reflection_node, toolCallCountAfter, retryCountAfter, htr, hs]
    · simp [reflection_node, toolCallCountAfter, retryCountAfter, htr, hs]

/-- C6: the tool executor performs at most one tool invocation per pass
(exactly the one named by `current_tool_call` when present), captures a
raised exception as a failed `ToolResult` instead of propagating it,
always hands over to Reflection, and on the compiled graph no trace can
visit ToolExecutor twice without a Reflection strictly in between. -/
theorem single_tool_call_per_pass {α : Type} :
    (∀ (call : Option ToolCall) (execute : ToolCall → Except String (ToolData α)),
      (tool_executor_node call execute).next_node = "reflection" ∧
      (tool_executor_node call execute).invoked.length ≤ 1) ∧
    (∀ (c : ToolCall) (execute : ToolCall → Except String (ToolData α)),
      (tool_executor_node (some c) execute).invoked = [c]) ∧
    (∀ (c : ToolCall) (execute : ToolCall → Except String (ToolData α)) (msg : String),
      execute c = .error msg →
      (tool_executor_node (some c) execute).current_tool_result.success = false ∧
      (tool_executor_node (some c) execute).current_tool_result.error = some msg ∧
      (tool_executor_node (some c) execute).current_tool_result.tool_name = c.name) ∧
    (∀ t, IsTrace t → ∀ i j, i < j → j < t.length →
      t.getD i .entry = .toolExecutor → t.getD j .entry = .toolExecutor →
      ∃ k, i < k ∧ k ≤ j ∧ t.getD k .entry = .reflectionNode) := by
  refine ⟨?_, ?_, ?_, ?_⟩
  · intro call execute
    rcases call with _ | c
    · exact ⟨rfl, by simp [tool_executor_node]⟩
    · rcases hex : execute c with r | msg <;>
        simp [tool_executor_node, hex]
  · intro c execute
    rcases hex : execute c with r | msg <;> simp [tool_executor_node, hex]
  · intro c execute msg hex
    simp [tool_executor_node, hex]
  · intro t ht i j hij hjlen hi hj
    refine ⟨i + 1, Nat.lt_succ_self i, hij, ?_⟩
    have hlt : i + 1 < t.length := lt_of_le_of_lt hij hjlen
    have hedge := ht i hlt
    rw [hi] at hedge
    rcases hnext : t.getD (i + 1) .entry <;> rw [hnext] at hedge <;>
      simp_all [graphEdge]

/-- C6 witness: in a concrete trace with ToolExecutor at positions 2 and
5, a Reflection entry sits strictly between them. -/
theorem single_tool_call_per_pass_witness :
    ∃ k, 2 < k ∧ k ≤ 5 ∧ sampleTrace.getD k Node.entry = Node.reflectionNode :=
  (single_tool_call_per_pass (α := Nat)).2.2.2 sampleTrace
    (by
      intro i hi
      have h8 : i < 8 := by
        simp [sampleTrace] at hi
        omega
      interval_cases i <;> rfl)
    2 5 (by decide) (by decide) rfl rfl

/-- C7: a reply in the `presenting_plan`/`refining` stage classifies as
confirmation iff it is shorter than 50 characters, matches an approval
pattern and contains no feedback keyword; "ok", "looks good" and
"proceed" confirm, "ok but remove provider X" and every message of
length ≥ 50 are treated as feedback. -/
theorem confirmation_classifier :
    (∀ msg, classifiesAsConfirmation msg = true ↔
      (isConfirmationPattern (pyStrip (pyLower msg)) = true ∧ pyLen msg < 50 ∧
        hasFeedbackIndicators (pyStrip (pyLower msg)) = false)) ∧
    classifiesAsConfirmation "ok" = true ∧
    classifiesAsConfirmation "looks good" = true ∧
    classifiesAsConfirmation "proceed" = true ∧
    classifiesAsConfirmation "ok but remove provider X" = false ∧
    (∀ msg, 50 ≤ pyLen msg → classifiesAsConfirmation msg = false) := by
  refine ⟨?_, rfl, rfl, rfl, rfl, ?_⟩
  · intro msg
    simp [classifiesAsConfirmation, Bool.and_eq_true, Bool.not_eq_true',
      decide_eq_true_eq, and_assoc]
  · intro msg h
    have hlt : ¬ pyLen msg < 50 := by omega
    simp [classifiesAsConfirmation, hlt]

/-- C7 witness: a 50-character message is never a confirmation. -/
theorem confirmation_classifier_witness :
    classifiesAsConfirmation fiftyCharMessage = false :=
  confirmation_classifier.2.2.2.2.2 fiftyCharMessage (by decide)

/-- C8 counterexample: the completion `\x7b"foo": 1\x7d` is valid JSON but
none of the three decision shapes (it has no `action` key), and on it the
reasoning step raises an uncaught `KeyError` instead of degrading to a
respond action — so "never raises on texts that fail to parse into one of
the three shapes" is false on the code. -/
theorem parse_degradation_counterexample :
    noActionLoads (extractJsonBlock noActionContent) =
      some (.obj [("foo", .num 1)]) ∧
    (Json.obj [("foo", Json.num 1)]).lookup "action" = Option.none ∧
    reasoning_decision noActionLoads noActionContent = .raised "KeyError" :=
  ⟨rfl, rfl, rfl⟩

/-- C8 (amended): when the extracted completion text fails to decode as
JSON at all, the reasoning step does not raise: it degrades to a respond
update carrying the raw completion text, so the next node is Response. -/
theorem parse_degradation_on_decode_error
    (loads : String → Option Json) (content : String)
    (h : loads (extractJsonBlock content) = Option.none) :
    reasoning_decision loads content =
      .update "response" Option.none (some content) Option.none := by
  unfold reasoning_decision parse_reasoning_response
  rw [h]
  rfl

/-- C8 witness: under an always-failing decoder the reasoning step
degrades to a respond update carrying the raw text "hello". -/
theorem parse_degradation_on_decode_error_witness :
    reasoning_decision alwaysFailLoads "hello" =
      .update "response" Option.none (some "hello") Option.none :=
  parse_degradation_on_decode_error alwaysFailLoads "hello" rfl

/-- C9 counterexample: from `sentiment`, the message "continue" lands the
orchestrator in `complete`, not in the immediate successor `synthesis`
(the synthesis phase is crossed within the same turn); and from
`complete` any message restarts at `clarification`, going backwards — so
the strictly-one-step progression claim is false on the code. -/
theorem phase_progression_counterexample :
    processMessagePhase .sentiment "continue" = .complete ∧
    phaseSucc .sentiment = .synthesis ∧
    ResearchPhase.complete ≠ ResearchPhase.synthesis ∧
    ResearchPhase.complete ≠ ResearchPhase.sentiment ∧
    processMessagePhase .complete "add more details about pricing" = .clarification :=
  ⟨rfl, rfl, by decide, by decide, rfl⟩

/-- C9 (amended): one message keeps the phase or advances it one step,
except that a continue-signal in `sentiment` runs synthesis to completion
(resting phase jumps to `complete`) and any message in `complete`
restarts at `clarification`; `competitive`, `expertise` and `sentiment`
advance exactly when the message contains one of their continue-signal
keywords, `clarification` advances on any message, and a message in
`synthesis` always refines in place. -/
theorem phase_progression_characterization :
    (∀ msg, processMessagePhase .initial msg = .clarification) ∧
    (∀ msg, processMessagePhase .clarification msg = .competitive) ∧
    (∀ msg, processMessagePhase .competitive msg = .expertise ∨
      processMessagePhase .competitive msg = .competitive) ∧
    (∀ msg, processMessagePhase .competitive msg = .expertise ↔
      hasContinueSignal competitiveContinueSignals msg = true) ∧
    (∀ msg, processMessagePhase .expertise msg = .sentiment ∨
      processMessagePhase .expertise msg = .expertise) ∧
    (∀ msg, processMessagePhase .expertise msg = .sentiment ↔
      hasContinueSignal expertiseContinueSignals msg = true) ∧
    (∀ msg, processMessagePhase .sentiment msg = .complete ∨
      processMessagePhase .sentiment msg = .sentiment) ∧
    (∀ msg, processMessagePhase .sentiment msg = .complete ↔
      hasContinueSignal sentimentContinueSignals msg = true) ∧
    (∀ msg, processMessagePhase .synthesis msg = .synthesis) ∧
    (∀ msg, processMessagePhase .complete msg = .clarification) ∧
    (∀ p msg, processMessagePhase p msg = p ∨
      processMessagePhase p msg = phaseSucc p ∨
      (p = .sentiment ∧ processMessagePhase p msg = .complete) ∨
      (p = .complete ∧ processMessagePhase p msg = .clarification)) := by
  refine ⟨fun msg => rfl, fun msg => rfl, ?_, ?_, ?_, ?_, ?_, ?_,
    fun msg => rfl, fun msg => rfl, ?_⟩
  · intro msg
    simp only [processMessagePhase]
    split_ifs <;> simp
  · intro msg
    simp only [processMessagePhase]
    split_ifs with h <;> simp [h]
  · intro msg
    simp only [processMessagePhase]
    split_ifs <;> simp
  · intro msg
    simp only [processMessagePhase]
    split_ifs with h <;> simp [h]
  · intro msg
    simp only [processMessagePhase]
    split_ifs <;> simp
  · intro msg
    simp only [processMessagePhase]
    split_ifs with h <;> simp [h]
  · intro p msg
    cases p with
    | initial => exact Or.inr (Or.inl rfl)
    | clarification => exact Or.inr (Or.inl rfl)
    | competitive =>
      simp only [processMessagePhase]
      split_ifs
      · exact Or.inr (Or.inl rfl)
      · exact Or.inl rfl
    | expertise =>
      simp only [processMessagePhase]
      split_ifs
      · exact Or.inr (Or.inl rfl)
      · exact Or.inl rfl
    | sentiment =>
      simp only [processMessagePhase]
      split_ifs
      · exact Or.inr (Or.inr (Or.inl ⟨trivial, rfl⟩))
      · exact Or.inl rfl
    | synthesis => exact Or.inl rfl
    | complete => exact Or.inr (Or.inr (Or.inr ⟨rfl, rfl⟩))

end CurriculumAgent
